import Mathlib

/-!
Verification of the signed-request verifier of `facebook.py`.

Shallow embedding of the security-relevant functions of `src/facebook.py`
(a Python 2 client library): `base64_url_decode`, `parse_signed_request`,
`get_user_from_cookie`, and `GraphAPI.put_object`, together with the external
primitives they call, modelled from their documented Python 2 semantics:

* `hashlib.sha256` / `hmac.new(..., digestmod=hashlib.sha256)` — FIPS 180-4
  SHA-256 and RFC 2104 HMAC (block size 64, keys longer than the block size
  are first hashed), implemented on byte lists (`List Nat`, each byte `< 256`)
  with explicit `% 2^32` arithmetic;
* `base64.b64decode` — which in Python 2 delegates to `binascii.a2b_base64`,
  a lenient decoder that skips characters outside the base64 alphabet,
  treats `=` by position in the current quad, and raises an error (surfaced
  by `base64.b64decode` as `TypeError`) when bits are left over at the end
  ("Incorrect padding");
* `simplejson.loads` — modelled for ASCII JSON input with integer numerals
  (floating-point JSON numbers and non-ASCII bytes are rejected by the model;
  no claim under verification involves them).

Strings are modelled over their character lists; byte strings as `List Nat`.
All definitions use structural recursion so that concrete runs reduce inside
the kernel.
-/

set_option maxRecDepth 20000

/-! ## Byte strings -/

/-- The bytes of an ASCII string (Python 2 `str` holds bytes; the tokens,
payload segments and secrets handled by the verifier are byte strings). -/
def strBytes (s : String) : List Nat := s.data.map Char.toNat

/-- `2^32`, the modulus of all SHA-256 word arithmetic. -/
def m32 : Nat := 4294967296

/-! ## SHA-256 (models `hashlib.sha256`, FIPS 180-4) -/

/-- Right rotation of a 32-bit word, on `Nat` below `2^32`. -/
def rotr (x n : Nat) : Nat := x / 2 ^ n + x % 2 ^ n * 2 ^ (32 - n)

/-- `Ch(x,y,z) = (x ∧ y) ⊕ (¬x ∧ z)` with 32-bit complement. -/
def ch (x y z : Nat) : Nat := (x &&& y) ^^^ ((4294967295 - x) &&& z)

/-- `Maj(x,y,z) = (x ∧ y) ⊕ (x ∧ z) ⊕ (y ∧ z)`. -/
def maj (x y z : Nat) : Nat := (x &&& y) ^^^ (x &&& z) ^^^ (y &&& z)

/-- `Σ₀`. -/
def bsig0 (x : Nat) : Nat := rotr x 2 ^^^ rotr x 13 ^^^ rotr x 22

/-- `Σ₁`. -/
def bsig1 (x : Nat) : Nat := rotr x 6 ^^^ rotr x 11 ^^^ rotr x 25

/-- `σ₀`. -/
def ssig0 (x : Nat) : Nat := rotr x 7 ^^^ rotr x 18 ^^^ x / 8

/-- `σ₁`. -/
def ssig1 (x : Nat) : Nat := rotr x 17 ^^^ rotr x 19 ^^^ x / 1024

/-- The 64 SHA-256 round constants (FIPS 180-4 §4.2.2), in decimal. -/
def K256 : List Nat :=
  [1116352408, 1899447441, 3049323471, 3921009573, 961987163, 1508970993,
   2453635748, 2870763221, 3624381080, 310598401, 607225278, 1426881987,
   1925078388, 2162078206, 2614888103, 3248222580, 3835390401, 4022224774,
   264347078, 604807628, 770255983, 1249150122, 1555081692, 1996064986,
   2554220882, 2821834349, 2952996808, 3210313671, 3336571891, 3584528711,
   113926993, 338241895, 666307205, 773529912, 1294757372, 1396182291,
   1695183700, 1986661051, 2177026350, 2456956037, 2730485921, 2820302411,
   3259730800, 3345764771, 3516065817, 3600352804, 4094571909, 275423344,
   430227734, 506948616, 659060556, 883997877, 958139571, 1322822218,
   1537002063, 1747873779, 1955562222, 2024104815, 2227730452, 2361852424,
   2428436474, 2756734187, 3204031479, 3329325298]

/-- The eight-word SHA-256 state. -/
structure H8 where
  a : Nat
  b : Nat
  c : Nat
  d : Nat
  e : Nat
  f : Nat
  g : Nat
  h : Nat

/-- The SHA-256 initial hash value (FIPS 180-4 §5.3.3), in decimal. -/
def initH : H8 :=
  ⟨1779033703, 3144134277, 1013904242, 2773480762,
   1359893119, 2600822924, 528734635, 1541459225⟩

/-- Big-endian 4-byte serialization of a 32-bit word. -/
def toBytes4 (w : Nat) : List Nat :=
  [w / 16777216 % 256, w / 65536 % 256, w / 256 % 256, w % 256]

/-- Big-endian 8-byte serialization of a 64-bit length field. -/
def toBytes8 (n : Nat) : List Nat :=
  [n / 72057594037927936 % 256, n / 281474976710656 % 256, n / 1099511627776 % 256,
   n / 4294967296 % 256, n / 16777216 % 256, n / 65536 % 256, n / 256 % 256, n % 256]

/-- FIPS 180-4 §5.1.1 padding: `0x80`, zeros to 56 mod 64, 64-bit bit length. -/
def sha256pad (msg : List Nat) : List Nat :=
  msg ++ 128 :: List.replicate ((119 - msg.length % 64) % 64) 0 ++ toBytes8 (8 * msg.length)

/-- Big-endian 32-bit words from bytes, four at a time. -/
def bytesToWords : List Nat → List Nat
  | b0 :: b1 :: b2 :: b3 :: rest =>
      (b0 * 16777216 + b1 * 65536 + b2 * 256 + b3) :: bytesToWords rest
  | _ => []

/-- Extend the 16-word schedule by `fuel` further words (FIPS 180-4 §6.2.2 step 1). -/
def extendW : Nat → List Nat → List Nat
  | 0, ws => ws
  | fuel + 1, ws =>
      let n := ws.length
      extendW fuel (ws ++ [(ssig1 (ws.getD (n - 2) 0) + ws.getD (n - 7) 0 +
        ssig0 (ws.getD (n - 15) 0) + ws.getD (n - 16) 0) % m32])

/-- One SHA-256 round. -/
def round256 (st : H8) (kw : Nat × Nat) : H8 :=
  let t1 := (st.h + bsig1 st.e + ch st.e st.f st.g + kw.1 + kw.2) % m32
  let t2 := (bsig0 st.a + maj st.a st.b st.c) % m32
  ⟨(t1 + t2) % m32, st.a, st.b, st.c, (st.d + t1) % m32, st.e, st.f, st.g⟩

/-- Compression of one 64-byte block into the state. -/
def compress (st : H8) (block : List Nat) : H8 :=
  let ws := extendW 48 (bytesToWords block)
  let r := (K256.zip ws).foldl round256 st
  ⟨(st.a + r.a) % m32, (st.b + r.b) % m32, (st.c + r.c) % m32, (st.d + r.d) % m32,
   (st.e + r.e) % m32, (st.f + r.f) % m32, (st.g + r.g) % m32, (st.h + r.h) % m32⟩

/-- Split into 64-byte blocks; `fuel` bounds the recursion (pass the length). -/
def chunks64 : Nat → List Nat → List (List Nat)
  | 0, _ => []
  | _, [] => []
  | fuel + 1, bs => bs.take 64 :: chunks64 fuel (bs.drop 64)

/-- SHA-256 of a byte string, as a 32-byte string. Models `hashlib.sha256(m).digest()`. -/
def sha256 (msg : List Nat) : List Nat :=
  let padded := sha256pad msg
  let st := (chunks64 padded.length padded).foldl compress initH
  toBytes4 st.a ++ toBytes4 st.b ++ toBytes4 st.c ++ toBytes4 st.d ++
    toBytes4 st.e ++ toBytes4 st.f ++ toBytes4 st.g ++ toBytes4 st.h

/-- HMAC-SHA256 (RFC 2104) exactly as Python 2 `hmac.new(key, msg,
digestmod=hashlib.sha256).digest()`: block size 64, a key longer than the
block is replaced by its digest, then zero-padded; inner pad `0x36`,
outer pad `0x5c`. -/
def hmacSha256 (key msg : List Nat) : List Nat :=
  let k0 := if 64 < key.length then sha256 key else key
  let k1 := k0 ++ List.replicate (64 - k0.length) 0
  sha256 (k1.map (fun b => b ^^^ 92) ++ sha256 (k1.map (fun b => b ^^^ 54) ++ msg))

/-! ## Base64 decoding (models Python 2 `base64.b64decode` /
`binascii.a2b_base64`) -/

/-- The `table_a2b_base64` character table of CPython 2 `binascii.c`, by
character code: the 64 alphabet characters map to their 6-bit values, `=`
(code 61) maps to 0 (marked "PAD->0" in the C source, making it *valid* for
`binascii_find_valid`), everything else is invalid. -/
def tableA2B (n : Nat) : Option Nat :=
  if 65 ≤ n ∧ n ≤ 90 then some (n - 65)
  else if 97 ≤ n ∧ n ≤ 122 then some (n - 71)
  else if 48 ≤ n ∧ n ≤ 57 then some (n + 4)
  else if n = 43 then some 62
  else if n = 47 then some 63
  else if n = 61 then some 0
  else none

/-- `binascii_find_valid(s, len, num)`: the `num`-th (0-based) character of
`s` that is ≤ 0x7f and valid in `table_a2b_base64` (`=` counts as valid). -/
def findValid : List Char → Nat → Option Char
  | [], _ => none
  | c :: rest, num =>
      if c.toNat ≤ 127 ∧ tableA2B c.toNat ≠ none then
        if num = 0 then some c else findValid rest (num - 1)
      else findValid rest num

/-- The state-machine loop of CPython 2 `binascii.a2b_base64`: characters
above 0x7f and `\r`, `\n`, space are skipped; `=` is ignored at quad
position 0 or 1, and at position 2 unless the next valid character is again
`=`; a `=` that completes a pad sequence ends the input with no leftover
bits; other characters are looked up in the table (invalid ones skipped) and
shifted in 6 bits at a time, emitting a byte whenever 8 bits are available.
If bits are left at the end the call fails ("Incorrect padding"). -/
def a2b_aux : List Char → Nat → Nat → Nat → Except Unit (List Nat)
  | [], _, leftBits, _ => if leftBits ≠ 0 then .error () else .ok []
  | c :: rest, quadPos, leftBits, leftChar =>
      if 127 < c.toNat ∨ c.toNat = 13 ∨ c.toNat = 10 ∨ c.toNat = 32 then
        a2b_aux rest quadPos leftBits leftChar
      else if c.toNat = 61 then
        if quadPos < 2 ∨ (quadPos = 2 ∧ findValid (c :: rest) 1 ≠ some '=') then
          a2b_aux rest quadPos leftBits leftChar
        else .ok []
      else
        match tableA2B c.toNat with
        | none => a2b_aux rest quadPos leftBits leftChar
        | some v =>
            let leftChar' := leftChar * 64 + v
            let leftBits' := leftBits + 6
            if 8 ≤ leftBits' then
              match a2b_aux rest ((quadPos + 1) % 4) (leftBits' - 8) (leftChar' % 2 ^ (leftBits' - 8)) with
              | .error e => .error e
              | .ok bs => .ok (leftChar' / 2 ^ (leftBits' - 8) % 256 :: bs)
            else a2b_aux rest ((quadPos + 1) % 4) leftBits' leftChar'

/-- Python 2 `base64.b64decode` on a character list: run `a2b_base64`; a
`binascii.Error` is re-raised by `base64.b64decode` as `TypeError`, modelled
by `Except.error`. -/
def b64decode (s : List Char) : Except Unit (List Nat) := a2b_aux s 0 0 0

/-- The `unicode.translate` table of `base64_url_decode`: `-` to `+`,
`_` to `/`, all other characters unchanged. -/
def translateUrl (c : Char) : Char :=
  if c = '-' then '+' else if c = '_' then '/' else c

/-- `facebook.base64_url_decode` (src/facebook.py:339-342): append
`(4 - len(inp) % 4) % 4` padding characters `=`, translate `-_` to `+/`,
then standard-decode. The model covers byte-string input in the ASCII range
(the only inputs the verifier feeds it). -/
def base64_url_decode (inp : String) : Except Unit (List Nat) :=
  let padding_factor := (4 - inp.length % 4) % 4
  b64decode ((inp.data ++ List.replicate padding_factor '=').map translateUrl)

/-! ## Base64url encoding (the spec's `encode` direction) -/

/-- The URL-safe base64 alphabet. -/
def urlAlphabet : List Char :=
  "ABCDEFGHIJKLMNOPQRSTUVWXYZabcdefghijklmnopqrstuvwxyz0123456789-_".data

/-- The `n`-th character of the URL-safe base64 alphabet. -/
def urlChar (n : Nat) : Char := urlAlphabet.getD n 'A'

/-- The standard base64 alphabet. -/
def stdAlphabet : List Char :=
  "ABCDEFGHIJKLMNOPQRSTUVWXYZabcdefghijklmnopqrstuvwxyz0123456789+/".data

/-- The `n`-th character of the standard base64 alphabet. -/
def stdChar (n : Nat) : Char := stdAlphabet.getD n 'A'

/-- The 6-bit groups of a byte string, in base64 order (final group of one
byte yields two values, of two bytes three values). -/
def sixbitGroups : List Nat → List Nat
  | [] => []
  | [b1] => [b1 / 4, b1 % 4 * 16]
  | [b1, b2] => [b1 / 4, b1 % 4 * 16 + b2 / 16, b2 % 16 * 4]
  | b1 :: b2 :: b3 :: rest =>
      b1 / 4 :: (b1 % 4 * 16 + b2 / 16) :: (b2 % 16 * 4 + b3 / 64) :: b3 % 64 ::
        sixbitGroups rest

/-- Modelled from the spec: base64url encoding with padding stripped
("base64url-encoding the JSON (no padding)"), the producer-side encoding the
verifier's round-trip law is stated against. -/
def b64urlEncode (bs : List Nat) : List Char := (sixbitGroups bs).map urlChar

/-! ## JSON (models `simplejson.loads` on ASCII input with integer numerals) -/

/-- A JSON value. Objects keep their members in source order (Python builds a
`dict`; lookups below take the last binding of a key, as `dict` construction
does). -/
inductive Json where
  | null : Json
  | bool (b : Bool) : Json
  | num (n : Int) : Json
  | str (s : String) : Json
  | arr (xs : List Json) : Json
  | obj (kvs : List (String × Json)) : Json

/-- Skip JSON whitespace (space, tab, newline, carriage return). -/
def skipWs : List Nat → List Nat
  | 32 :: rest => skipWs rest
  | 9 :: rest => skipWs rest
  | 10 :: rest => skipWs rest
  | 13 :: rest => skipWs rest
  | bs => bs

/-- Parse the body of a JSON string after the opening quote, returning the
characters and the input after the closing quote. Escapes `\" \\ \/ \b \f
\n \r \t` are decoded; `\uXXXX` yields the code point; unescaped control
bytes and bytes outside ASCII are rejected (the model's ASCII restriction). -/
def parseStrBody : Nat → List Nat → Except Unit (List Char × List Nat)
  | 0, _ => .error ()
  | _, [] => .error ()
  | fuel + 1, b :: rest =>
      if b = 34 then .ok ([], rest)
      else if b = 92 then
        match rest with
        | [] => .error ()
        | e :: rest2 =>
            let esc : Except Unit (Char × List Nat) :=
              if e = 34 then .ok ('"', rest2)
              else if e = 92 then .ok ('\\', rest2)
              else if e = 47 then .ok ('/', rest2)
              else if e = 98 then .ok (Char.ofNat 8, rest2)
              else if e = 102 then .ok (Char.ofNat 12, rest2)
              else if e = 110 then .ok ('\n', rest2)
              else if e = 114 then .ok ('\r', rest2)
              else if e = 116 then .ok (Char.ofNat 9, rest2)
              else if e = 117 then
                match rest2 with
                | h1 :: h2 :: h3 :: h4 :: rest3 =>
                    let hexVal : Nat → Option Nat := fun d =>
                      if 48 ≤ d ∧ d ≤ 57 then some (d - 48)
                      else if 97 ≤ d ∧ d ≤ 102 then some (d - 87)
                      else if 65 ≤ d ∧ d ≤ 70 then some (d - 55)
                      else none
                    match hexVal h1, hexVal h2, hexVal h3, hexVal h4 with
                    | some v1, some v2, some v3, some v4 =>
                        .ok (Char.ofNat (v1 * 4096 + v2 * 256 + v3 * 16 + v4), rest3)
                    | _, _, _, _ => .error ()
                | _ => .error ()
              else .error ()
            match esc with
            | .error e => .error e
            | .ok (c, rest2) =>
                match parseStrBody fuel rest2 with
                | .error e => .error e
                | .ok (cs, rem) => .ok (c :: cs, rem)
      else if 32 ≤ b ∧ b ≤ 127 then
        match parseStrBody fuel rest with
        | .error e => .error e
        | .ok (cs, rem) => .ok (Char.ofNat b :: cs, rem)
      else .error ()

/-- Parse the digits of a JSON integer (no leading zero unless the number is
`0`); fractional or exponent parts are out of the model's scope and fail. -/
def parseDigits : Nat → List Nat → Nat → Except Unit (Nat × List Nat)
  | 0, _, _ => .error ()
  | _ + 1, [], acc => .ok (acc, [])
  | fuel + 1, b :: rest, acc =>
      if 48 ≤ b ∧ b ≤ 57 then parseDigits fuel rest (acc * 10 + (b - 48))
      else .ok (acc, b :: rest)

/-- Parse a JSON number (integer part only; `.`/`e`/`E` after it fail). -/
def parseNum (bs : List Nat) : Except Unit (Int × List Nat) :=
  let core : List Nat → Except Unit (Nat × List Nat) := fun s =>
    match s with
    | [] => .error ()
    | b :: rest =>
        if b = 48 then .ok (0, rest)
        else if 49 ≤ b ∧ b ≤ 57 then parseDigits rest.length rest (b - 48)
        else .error ()
  match bs with
  | 45 :: rest =>
      match core rest with
      | .error e => .error e
      | .ok (n, rem) =>
          match rem with
          | 46 :: _ => .error ()
          | 101 :: _ => .error ()
          | 69 :: _ => .error ()
          | _ => .ok (-(n : Int), rem)
  | _ =>
      match core bs with
      | .error e => .error e
      | .ok (n, rem) =>
          match rem with
          | 46 :: _ => .error ()
          | 101 :: _ => .error ()
          | 69 :: _ => .error ()
          | _ => .ok ((n : Int), rem)

/-- Object-member loop: `pv` parses one value at one fuel level lower.
Expects the input right after `{` or after a comma. -/
def parseMembersWith (pv : List Nat → Except Unit (Json × List Nat)) :
    Nat → List Nat → Except Unit (List (String × Json) × List Nat)
  | 0, _ => .error ()
  | fuel + 1, bs =>
      match skipWs bs with
      | 34 :: rest =>
          match parseStrBody rest.length rest with
          | .error e => .error e
          | .ok (key, rest2) =>
              match skipWs rest2 with
              | 58 :: rest3 =>
                  match pv rest3 with
                  | .error e => .error e
                  | .ok (v, rest4) =>
                      match skipWs rest4 with
                      | 44 :: rest5 =>
                          match parseMembersWith pv fuel rest5 with
                          | .error e => .error e
                          | .ok (kvs, rem) => .ok ((String.mk key, v) :: kvs, rem)
                      | 125 :: rest5 => .ok ([(String.mk key, v)], rest5)
                      | _ => .error ()
              | _ => .error ()
      | _ => .error ()

/-- Array-element loop, analogous to `parseMembersWith`. -/
def parseElemsWith (pv : List Nat → Except Unit (Json × List Nat)) :
    Nat → List Nat → Except Unit (List Json × List Nat)
  | 0, _ => .error ()
  | fuel + 1, bs =>
      match pv bs with
      | .error e => .error e
      | .ok (v, rest) =>
          match skipWs rest with
          | 44 :: rest2 =>
              match parseElemsWith pv fuel rest2 with
              | .error e => .error e
              | .ok (vs, rem) => .ok (v :: vs, rem)
          | 93 :: rest2 => .ok ([v], rest2)
          | _ => .error ()

/-- Parse one JSON value, returning it and the remaining input. -/
def parseVal : Nat → List Nat → Except Unit (Json × List Nat)
  | 0, _ => .error ()
  | fuel + 1, bs =>
      match skipWs bs with
      | [] => .error ()
      | b :: rest =>
          if b = 123 then
            match skipWs rest with
            | 125 :: rest2 => .ok (.obj [], rest2)
            | _ =>
                match parseMembersWith (parseVal fuel) (fuel + 1) rest with
                | .error e => .error e
                | .ok (kvs, rem) => .ok (.obj kvs, rem)
          else if b = 91 then
            match skipWs rest with
            | 93 :: rest2 => .ok (.arr [], rest2)
            | _ =>
                match parseElemsWith (parseVal fuel) (fuel + 1) rest with
                | .error e => .error e
                | .ok (vs, rem) => .ok (.arr vs, rem)
          else if b = 34 then
            match parseStrBody rest.length rest with
            | .error e => .error e
            | .ok (cs, rem) => .ok (.str (String.mk cs), rem)
          else if b = 116 then
            match rest with
            | 114 :: 117 :: 101 :: rem => .ok (.bool true, rem)
            | _ => .error ()
          else if b = 102 then
            match rest with
            | 97 :: 108 :: 115 :: 101 :: rem => .ok (.bool false, rem)
            | _ => .error ()
          else if b = 110 then
            match rest with
            | 117 :: 108 :: 108 :: rem => .ok (.null, rem)
            | _ => .error ()
          else
            match parseNum (b :: rest) with
            | .error e => .error e
            | .ok (n, rem) => .ok (.num n, rem)

/-- `_parse_json` = `simplejson.loads`: parse one value, then require only
whitespace to remain. -/
def parseJsonBytes (bs : List Nat) : Except Unit Json :=
  match parseVal (bs.length + 1) bs with
  | .error e => .error e
  | .ok (v, rem) => if skipWs rem = [] then .ok v else .error ()

/-! ## `parse_signed_request` (src/facebook.py:345-374) -/

/-- The Python exceptions the verifier can let escape: `TypeError` from
`base64.b64decode` (Python 2 re-raises `binascii.Error` as `TypeError`),
`ValueError` from `simplejson.loads`, and `AttributeError` from calling
`.get` on a non-dict or `.upper()` on a non-string (in particular on the
`None` that `dict.get` returns for a missing key). -/
inductive PyExn where
  | typeError : PyExn
  | valueError : PyExn
  | attributeError : PyExn
deriving DecidableEq

/-- How a call to `parse_signed_request` ends: a returned value (the decoded
payload dict, or `None`) or an uncaught exception. -/
inductive PSOutcome where
  | ret (d : Option Json) : PSOutcome
  | exn (e : PyExn) : PSOutcome

/-- A run of the verifier: its outcome together with the messages written to
the `facebook` logger, in order. -/
structure PSRun where
  outcome : PSOutcome
  logs : List String

/-- `signed_request.split('.', 1)`: `some (before, after)` splitting at the
first `.` with the remainder taken verbatim; `none` when no `.` occurs (the
two-element unpacking then raises `ValueError`, which the source catches). -/
def splitOnceAux : List Char → Option (List Char × List Char)
  | [] => none
  | c :: rest =>
      if c = '.' then some ([], rest)
      else
        match splitOnceAux rest with
        | none => none
        | some (pre, post) => some (c :: pre, post)

/-- String-level wrapper of `splitOnceAux`. -/
def splitOnce (s : String) : Option (String × String) :=
  match splitOnceAux s.data with
  | none => none
  | some (pre, post) => some (String.mk pre, String.mk post)

/-- Python `dict.get` on the object members: the last binding of the key
(later duplicates overwrite earlier ones when the dict is built). -/
def dictGet (kvs : List (String × Json)) (k : String) : Option Json :=
  (kvs.reverse.find? (fun p => p.1 == k)).map (fun p => p.2)

/-- Python 2 `str.upper` on ASCII text. -/
def pyUpper (s : String) : String := String.mk (s.data.map Char.toUpper)

/-- `data.get('algorithm').upper()`: fails with `AttributeError` when `data`
is not a dict (no `.get`), when the key is missing (`None.upper()`), or when
its value is not a string (no `.upper`). -/
def getAlgorithm (data : Json) : Except PyExn String :=
  match data with
  | .obj kvs =>
      match dictGet kvs "algorithm" with
      | some (.str s) => .ok (pyUpper s)
      | _ => .error .attributeError
  | _ => .error .attributeError

/-- `facebook.parse_signed_request` (src/facebook.py:345-374), step for
step: empty token returns `None` silently; a token without `.` logs
"Not a valid signed_request." and returns `None`; the two segment decodes
and the JSON parse are *not* guarded, so their errors escape; a non-matching
(or missing, or non-string) algorithm logs and returns `None`; otherwise the
expected signature is HMAC-SHA256 keyed by `secret` over the raw encoded
payload segment, and the decoded payload is returned exactly when the
decoded signature equals it, `None` (with a log line) otherwise. -/
def parse_signed_request (signed_request : String) (secret : List Nat) : PSRun :=
  if signed_request = "" then ⟨.ret none, []⟩
  else
    match splitOnce signed_request with
    | none => ⟨.ret none, ["Not a valid signed_request."]⟩
    | some (encoded_sig, payload) =>
        match base64_url_decode encoded_sig with
        | .error _ => ⟨.exn .typeError, []⟩
        | .ok sig =>
            match base64_url_decode payload with
            | .error _ => ⟨.exn .typeError, []⟩
            | .ok payloadBytes =>
                match parseJsonBytes payloadBytes with
                | .error _ => ⟨.exn .valueError, []⟩
                | .ok data =>
                    match getAlgorithm data with
                    | .error e => ⟨.exn e, []⟩
                    | .ok alg =>
                        if alg ≠ "HMAC-SHA256" then
                          ⟨.ret none, ["Unknown algorithm. Expected HMAC-SHA256"]⟩
                        else
                          if sig = hmacSha256 secret (strBytes payload) then
                            ⟨.ret (some data), []⟩
                          else ⟨.ret none, ["Bad Signed JSON signature!"]⟩

/-- `facebook.get_user_from_cookie` (src/facebook.py:416-433): read the
cookie `fbsr_<app_id>` with default `""`; a falsy value returns `None`,
otherwise the result is `parse_signed_request(value, app_secret)`. -/
def get_user_from_cookie (cookies : String → Option String) (app_id : String)
    (app_secret : List Nat) : PSRun :=
  let signed_request := (cookies ("fbsr_" ++ app_id)).getD ""
  if signed_request = "" then ⟨.ret none, []⟩
  else parse_signed_request signed_request app_secret

/-! ## `GraphAPI.put_object` (src/facebook.py:111-134) -/

/-- The client state: the optional OAuth access token. -/
structure GraphAPI where
  access_token : Option String

/-- What `put_object` does: fail the `assert` (no access token) before any
request, or delegate to `self.request(parent_object + "/" + connection_name,
post_args=data)` — the HTTP call itself is outside the model, so the
delegated path and arguments are the observable. -/
inductive PutObjectOutcome where
  | assertionError : PutObjectOutcome
  | request (path : String) (post_args : List (String × String)) : PutObjectOutcome
deriving DecidableEq

/-- Python truthiness of the `access_token` attribute (`None` and `""` are
falsy). -/
def pyTruthy : Option String → Bool
  | none => false
  | some s => s ≠ ""

/-- `GraphAPI.put_object`: `assert self.access_token` then delegate. -/
def put_object (g : GraphAPI) (parent_object connection_name : String)
    (data : List (String × String)) : PutObjectOutcome :=
  if pyTruthy g.access_token then
    .request (parent_object ++ "/" ++ connection_name) data
  else .assertionError

/-! ## The spec's `encode` construction -/

/-- Modelled from the spec: the token `encode(m, k)` "built by
base64url-encoding the JSON, signing the encoded payload with HMAC-SHA256
under k, base64url-encoding the signature, and joining as sig.payload".
The payload is passed as its already-encoded segment `payloadSegment`
(the base64url text of the JSON); `m` is recovered from it by decoding. -/
def encodeToken (payloadSegment : String) (secret : List Nat) : String :=
  String.mk (b64urlEncode (hmacSha256 secret (strBytes payloadSegment)) ++
    '.' :: payloadSegment.data)

/-- Modelled from the spec: `encode(m, k)` for a payload given as JSON text. -/
def encodeJson (jsonText : String) (secret : List Nat) : String :=
  encodeToken (String.mk (b64urlEncode (strBytes jsonText))) secret

/-- A character the base64 decoder consumes as data: in the decode table and
not the pad character. -/
def isDataChar (c : Char) : Prop := tableA2B c.toNat ≠ none ∧ c.toNat ≠ 61

instance (c : Char) : Decidable (isDataChar c) := by
  unfold isDataChar; infer_instance

/-- The pad tail `binascii` sees for an all-valid input whose data-character
count is `r` mod 4 (what `(4 - r % 4) % 4` pad characters amount to). -/
def padTail4 (r : Nat) : List Char :=
  match r with
  | 1 => ['=', '=', '=']
  | 2 => ['=', '=']
  | 3 => ['=']
  | _ => []

/-- The end-to-end scenario payload of the spec:
`{"algorithm":"HMAC-SHA256","user_id":"123"}`. -/
def scenarioJson : String := "\x7b\"algorithm\":\"HMAC-SHA256\",\"user_id\":\"123\"\x7d"

/-- The parsed form of `scenarioJson`. -/
def scenarioData : Json :=
  Json.obj [("algorithm", Json.str "HMAC-SHA256"), ("user_id", Json.str "123")]

/-! ## Lemmas about the base64 state machine -/

theorem tableA2B_facts {n v : Nat} (h : tableA2B n = some v) :
    n ≤ 127 ∧ n ≠ 13 ∧ n ≠ 10 ∧ n ≠ 32 ∧ v < 64 := by
  simp only [tableA2B] at h
  split_ifs at h <;> simp_all <;> omega

/-- Unfolding one data-character step of `a2b_aux`. -/
theorem a2b_step (c : Char) (rest : List Char) (q bits lc v : Nat)
    (h : tableA2B c.toNat = some v) (hne : c.toNat ≠ 61) :
    a2b_aux (c :: rest) q bits lc =
      if 8 ≤ bits + 6 then
        match a2b_aux rest ((q + 1) % 4) (bits + 6 - 8) ((lc * 64 + v) % 2 ^ (bits + 6 - 8)) with
        | .error e => .error e
        | .ok bs => .ok ((lc * 64 + v) / 2 ^ (bits + 6 - 8) % 256 :: bs)
      else a2b_aux rest ((q + 1) % 4) (bits + 6) (lc * 64 + v) := by
  obtain ⟨h1, h2, h3, h4, h5⟩ := tableA2B_facts h
  simp only [a2b_aux]
  rw [if_neg (by omega), if_neg hne, h]

/-- A pad character at quad position 0 or 1, or at position 2 not followed by
a valid pad, is skipped. -/
theorem a2b_pad_skip (rest : List Char) (q bits lc : Nat)
    (h : q < 2 ∨ q = 2 ∧ findValid ('=' :: rest) 1 ≠ some '=') :
    a2b_aux ('=' :: rest) q bits lc = a2b_aux rest q bits lc := by
  simp only [a2b_aux]
  rw [if_neg (by decide), if_pos (by decide), if_pos h]

/-- A pad character completing a pad sequence ends the input successfully. -/
theorem a2b_pad_end (rest : List Char) (q bits lc : Nat)
    (h : ¬(q < 2 ∨ q = 2 ∧ findValid ('=' :: rest) 1 ≠ some '=')) :
    a2b_aux ('=' :: rest) q bits lc = .ok [] := by
  simp only [a2b_aux]
  rw [if_neg (by decide), if_pos (by decide), if_neg h]

/-- Four data characters from quad-aligned state decode to three bytes. -/
theorem a2b_quad (c1 c2 c3 c4 : Char) (rest : List Char) (v1 v2 v3 v4 : Nat)
    (h1 : tableA2B c1.toNat = some v1) (n1 : c1.toNat ≠ 61)
    (h2 : tableA2B c2.toNat = some v2) (n2 : c2.toNat ≠ 61)
    (h3 : tableA2B c3.toNat = some v3) (n3 : c3.toNat ≠ 61)
    (h4 : tableA2B c4.toNat = some v4) (n4 : c4.toNat ≠ 61) :
    a2b_aux (c1 :: c2 :: c3 :: c4 :: rest) 0 0 0 =
      match a2b_aux rest 0 0 0 with
      | .error e => .error e
      | .ok bs =>
          .ok ((v1 * 64 + v2) / 16 % 256 ::
            ((v1 * 64 + v2) % 16 * 64 + v3) / 4 % 256 ::
            (((v1 * 64 + v2) % 16 * 64 + v3) % 4 * 64 + v4) % 256 :: bs) := by
  rw [a2b_step c1 _ 0 0 0 v1 h1 n1]
  norm_num
  rw [a2b_step c2 _ 1 6 v1 v2 h2 n2]
  norm_num
  rw [a2b_step c3 _ 2 4 ((v1 * 64 + v2) % 16) v3 h3 n3]
  norm_num
  rw [a2b_step c4 _ 3 2 (((v1 * 64 + v2) % 16 * 64 + v3) % 4) v4 h4 n4]
  norm_num [Nat.mod_one]
  cases hr : a2b_aux rest 0 0 0 <;> simp [hr]

/-- Run of the decoder over any all-valid data-character string followed by
the pad tail that `(4 - len % 4) % 4` padding characters produce: lengths
0, 2, 3 mod 4 decode successfully, length 1 mod 4 leaves 6 bits over and
fails ("Incorrect padding"). -/
theorem a2b_valid_run : (cs : List Char) → (∀ c ∈ cs, isDataChar c) →
    ((cs.length % 4 ≠ 1 →
        ∃ bs, a2b_aux (cs ++ padTail4 (cs.length % 4)) 0 0 0 = Except.ok bs) ∧
     (cs.length % 4 = 1 →
        a2b_aux (cs ++ padTail4 (cs.length % 4)) 0 0 0 = Except.error ()))
  | [], _ => ⟨fun _ => ⟨[], rfl⟩, fun h => by simp at h⟩
  | [c1], hv => by
      obtain ⟨ht1, hn1⟩ := hv c1 (by simp)
      rw [Option.ne_none_iff_exists'] at ht1
      obtain ⟨v1, h1⟩ := ht1
      constructor
      · intro h; simp at h
      · intro _
        show a2b_aux (c1 :: '=' :: '=' :: '=' :: []) 0 0 0 = Except.error ()
        rw [a2b_step c1 _ 0 0 0 v1 h1 hn1]
        norm_num
        rw [a2b_pad_skip _ 1 6 v1 (Or.inl (by norm_num)),
          a2b_pad_skip _ 1 6 v1 (Or.inl (by norm_num)),
          a2b_pad_skip _ 1 6 v1 (Or.inl (by norm_num))]
        rfl
  | [c1, c2], hv => by
      obtain ⟨ht1, hn1⟩ := hv c1 (by simp)
      rw [Option.ne_none_iff_exists'] at ht1
      obtain ⟨v1, h1⟩ := ht1
      obtain ⟨ht2, hn2⟩ := hv c2 (by simp)
      rw [Option.ne_none_iff_exists'] at ht2
      obtain ⟨v2, h2⟩ := ht2
      constructor
      · intro _
        refine ⟨[(v1 * 64 + v2) / 2 ^ 4 % 256], ?_⟩
        show a2b_aux (c1 :: c2 :: '=' :: '=' :: []) 0 0 0 = _
        rw [a2b_step c1 _ 0 0 0 v1 h1 hn1]
        norm_num
        rw [a2b_step c2 _ 1 6 v1 v2 h2 hn2]
        norm_num
        rw [a2b_pad_end _ 2 _ _ (by decide)]
      · intro h; simp at h
  | [c1, c2, c3], hv => by
      obtain ⟨ht1, hn1⟩ := hv c1 (by simp)
      rw [Option.ne_none_iff_exists'] at ht1
      obtain ⟨v1, h1⟩ := ht1
      obtain ⟨ht2, hn2⟩ := hv c2 (by simp)
      rw [Option.ne_none_iff_exists'] at ht2
      obtain ⟨v2, h2⟩ := ht2
      obtain ⟨ht3, hn3⟩ := hv c3 (by simp)
      rw [Option.ne_none_iff_exists'] at ht3
      obtain ⟨v3, h3⟩ := ht3
      constructor
      · intro _
        refine ⟨[(v1 * 64 + v2) / 2 ^ 4 % 256,
          ((v1 * 64 + v2) % 2 ^ 4 * 64 + v3) / 2 ^ 2 % 256], ?_⟩
        show a2b_aux (c1 :: c2 :: c3 :: '=' :: []) 0 0 0 = _
        rw [a2b_step c1 _ 0 0 0 v1 h1 hn1]
        norm_num
        rw [a2b_step c2 _ 1 6 v1 v2 h2 hn2]
        norm_num
        rw [a2b_step c3 _ 2 4 ((v1 * 64 + v2) % 16) v3 h3 hn3]
        norm_num
        rw [a2b_pad_end _ 3 _ _ (by norm_num)]
      · intro h; simp at h
  | c1 :: c2 :: c3 :: c4 :: rest, hv => by
      obtain ⟨ht1, hn1⟩ := hv c1 (by simp)
      rw [Option.ne_none_iff_exists'] at ht1
      obtain ⟨v1, h1⟩ := ht1
      obtain ⟨ht2, hn2⟩ := hv c2 (by simp)
      rw [Option.ne_none_iff_exists'] at ht2
      obtain ⟨v2, h2⟩ := ht2
      obtain ⟨ht3, hn3⟩ := hv c3 (by simp)
      rw [Option.ne_none_iff_exists'] at ht3
      obtain ⟨v3, h3⟩ := ht3
      obtain ⟨ht4, hn4⟩ := hv c4 (by simp)
      rw [Option.ne_none_iff_exists'] at ht4
      obtain ⟨v4, h4⟩ := ht4
      have IH := a2b_valid_run rest (fun c hc => hv c (by simp [hc]))
      have hlen : (c1 :: c2 :: c3 :: c4 :: rest).length % 4 = rest.length % 4 := by
        simp [List.length]; omega
      rw [hlen]
      simp only [List.cons_append]
      rw [a2b_quad c1 c2 c3 c4 _ v1 v2 v3 v4 h1 hn1 h2 hn2 h3 hn3 h4 hn4]
      constructor
      · intro h
        obtain ⟨bs, hbs⟩ := IH.1 h
        rw [hbs]
        exact ⟨_, rfl⟩
      · intro h
        rw [IH.2 h]

/-- Standard-alphabet characters decode back to their 6-bit values and are
not the pad character. -/
theorem std_table : ∀ v, v < 64 →
    tableA2B (stdChar v).toNat = some v ∧ (stdChar v).toNat ≠ 61 := by decide

/-- The 6-bit groups of a byte string are below 64. -/
theorem sixbit_lt : (bs : List Nat) → (∀ b ∈ bs, b < 256) →
    ∀ v ∈ sixbitGroups bs, v < 64
  | [], _ => by simp [sixbitGroups]
  | [b1], h => by
      have hb1 : b1 < 256 := h b1 (by simp)
      simp only [sixbitGroups, List.mem_cons, List.not_mem_nil, or_false]
      rintro v (rfl | rfl) <;> omega
  | [b1, b2], h => by
      have hb1 : b1 < 256 := h b1 (by simp)
      have hb2 : b2 < 256 := h b2 (by simp)
      simp only [sixbitGroups, List.mem_cons, List.not_mem_nil, or_false]
      rintro v (rfl | rfl | rfl) <;> omega
  | b1 :: b2 :: b3 :: rest, h => by
      have hb1 : b1 < 256 := h b1 (by simp)
      have hb2 : b2 < 256 := h b2 (by simp)
      have hb3 : b3 < 256 := h b3 (by simp)
      have IH := sixbit_lt rest (fun b hb => h b (by simp [hb]))
      simp only [sixbitGroups, List.mem_cons]
      rintro v (rfl | rfl | rfl | rfl | hm)
      · omega
      · omega
      · omega
      · omega
      · exact IH v hm

/-- Decoding the standard-alphabet encoding of a byte string (with the pad
tail its length dictates) restores the bytes. -/
theorem a2b_enc : (bs : List Nat) → (∀ b ∈ bs, b < 256) →
    a2b_aux ((sixbitGroups bs).map stdChar ++ padTail4 ((sixbitGroups bs).length % 4))
      0 0 0 = Except.ok bs
  | [], _ => rfl
  | [b1], h => by
      have hb1 : b1 < 256 := h b1 (by simp)
      obtain ⟨h1, hn1⟩ := std_table (b1 / 4) (by omega)
      obtain ⟨h2, hn2⟩ := std_table (b1 % 4 * 16) (by omega)
      show a2b_aux (stdChar (b1 / 4) :: stdChar (b1 % 4 * 16) :: '=' :: '=' :: []) 0 0 0 = _
      rw [a2b_step _ _ 0 0 0 _ h1 hn1]
      norm_num
      rw [a2b_step _ _ 1 6 _ _ h2 hn2]
      norm_num
      rw [a2b_pad_end _ 2 _ _ (by decide)]
      have e1 : (b1 / 4 * 64 + b1 % 4 * 16) / 16 % 256 = b1 := by omega
      rw [e1]
  | [b1, b2], h => by
      have hb1 : b1 < 256 := h b1 (by simp)
      have hb2 : b2 < 256 := h b2 (by simp)
      obtain ⟨h1, hn1⟩ := std_table (b1 / 4) (by omega)
      obtain ⟨h2, hn2⟩ := std_table (b1 % 4 * 16 + b2 / 16) (by omega)
      obtain ⟨h3, hn3⟩ := std_table (b2 % 16 * 4) (by omega)
      show a2b_aux (stdChar (b1 / 4) :: stdChar (b1 % 4 * 16 + b2 / 16) ::
        stdChar (b2 % 16 * 4) :: '=' :: []) 0 0 0 = _
      rw [a2b_step _ _ 0 0 0 _ h1 hn1]
      norm_num
      rw [a2b_step _ _ 1 6 _ _ h2 hn2]
      norm_num
      rw [a2b_step _ _ 2 4 _ _ h3 hn3]
      norm_num
      rw [a2b_pad_end _ 3 _ _ (by norm_num)]
      have e1 : (b1 / 4 * 64 + (b1 % 4 * 16 + b2 / 16)) / 16 % 256 = b1 := by omega
      have e2 : ((b1 / 4 * 64 + (b1 % 4 * 16 + b2 / 16)) % 16 * 64 + b2 % 16 * 4) / 4 % 256 = b2 := by
        omega
      rw [e1, e2]
  | b1 :: b2 :: b3 :: rest, h => by
      have hb1 : b1 < 256 := h b1 (by simp)
      have hb2 : b2 < 256 := h b2 (by simp)
      have hb3 : b3 < 256 := h b3 (by simp)
      have IH := a2b_enc rest (fun b hb => h b (by simp [hb]))
      obtain ⟨h1, hn1⟩ := std_table (b1 / 4) (by omega)
      obtain ⟨h2, hn2⟩ := std_table (b1 % 4 * 16 + b2 / 16) (by omega)
      obtain ⟨h3, hn3⟩ := std_table (b2 % 16 * 4 + b3 / 64) (by omega)
      obtain ⟨h4, hn4⟩ := std_table (b3 % 64) (by omega)
      have hlen : (sixbitGroups (b1 :: b2 :: b3 :: rest)).length % 4 =
          (sixbitGroups rest).length % 4 := by
        simp [sixbitGroups, List.length]; omega
      rw [hlen]
      simp only [sixbitGroups, List.map_cons, List.cons_append]
      rw [a2b_quad _ _ _ _ _ _ _ _ _ h1 hn1 h2 hn2 h3 hn3 h4 hn4, IH]
      have e1 : (b1 / 4 * 64 + (b1 % 4 * 16 + b2 / 16)) / 16 % 256 = b1 := by omega
      have e2 : ((b1 / 4 * 64 + (b1 % 4 * 16 + b2 / 16)) % 16 * 64 +
          (b2 % 16 * 4 + b3 / 64)) / 4 % 256 = b2 := by omega
      have e3 : (((b1 / 4 * 64 + (b1 % 4 * 16 + b2 / 16)) % 16 * 64 +
          (b2 % 16 * 4 + b3 / 64)) % 4 * 64 + b3 % 64) % 256 = b3 := by omega
      rw [e1, e2, e3]

/-- URL-alphabet characters translate to the corresponding standard ones. -/
theorem translate_url_std : ∀ v, v < 64 → translateUrl (urlChar v) = stdChar v := by decide

/-- `(4 - n % 4) % 4` pad characters are exactly the pad tail of `n % 4`. -/
theorem replicate_pad (n : Nat) :
    List.replicate ((4 - n % 4) % 4) '=' = padTail4 (n % 4) := by
  have h4 : n % 4 = 0 ∨ n % 4 = 1 ∨ n % 4 = 2 ∨ n % 4 = 3 := by omega
  rcases h4 with h | h | h | h <;> rw [h] <;> rfl

/-- `String.mk` then `.data` is the identity on character lists. -/
theorem data_mk (cs : List Char) : (String.mk cs).data = cs := rfl

/-- The length of `String.mk cs` is the length of `cs`. -/
theorem length_mk (cs : List Char) : (String.mk cs).length = cs.length := rfl

/-- Round trip: `base64_url_decode` inverts the producer-side unpadded
base64url encoding on byte strings. -/
theorem b64url_roundtrip (bs : List Nat) (h : ∀ b ∈ bs, b < 256) :
    base64_url_decode (String.mk (b64urlEncode bs)) = Except.ok bs := by
  unfold base64_url_decode b64decode b64urlEncode
  have hpt : translateUrl '=' = '=' := rfl
  simp only [length_mk, data_mk, List.length_map, List.map_append, List.map_map,
    List.map_replicate, hpt]
  rw [replicate_pad]
  have hmap : List.map (translateUrl ∘ urlChar) (sixbitGroups bs) =
      List.map stdChar (sixbitGroups bs) :=
    List.map_congr_left (fun v hv => translate_url_std v (sixbit_lt bs h v hv))
  rw [hmap]
  exact a2b_enc bs h

/-- Serialized words are bytes. -/
theorem toBytes4_lt (w : Nat) : ∀ b ∈ toBytes4 w, b < 256 := by
  simp only [toBytes4, List.mem_cons, List.not_mem_nil, or_false]
  rintro b (rfl | rfl | rfl | rfl) <;> omega

/-- A SHA-256 digest consists of bytes below 256. -/
theorem sha256_bytes_lt (msg : List Nat) : ∀ b ∈ sha256 msg, b < 256 := by
  intro b hb
  simp only [sha256, List.mem_append] at hb
  rcases hb with ((((((h | h) | h) | h) | h) | h) | h) | h <;>
    exact toBytes4_lt _ _ h

/-- A SHA-256 digest has 32 bytes. -/
theorem sha256_length (msg : List Nat) : (sha256 msg).length = 32 := by
  simp [sha256, toBytes4]

/-- An HMAC-SHA256 tag consists of bytes below 256. -/
theorem hmac_bytes_lt (key msg : List Nat) : ∀ b ∈ hmacSha256 key msg, b < 256 := by
  unfold hmacSha256
  exact sha256_bytes_lt _

/-- An HMAC-SHA256 tag has 32 bytes. -/
theorem hmac_length (key msg : List Nat) : (hmacSha256 key msg).length = 32 := by
  unfold hmacSha256
  exact sha256_length _

/-! ## Lemmas about `split('.', 1)` -/

theorem splitOnceAux_no_dot : ∀ (l : List Char), '.' ∉ l → splitOnceAux l = none := by
  intro l
  induction l with
  | nil => intro _; rfl
  | cons c rest ih =>
      intro h
      simp only [List.mem_cons, not_or] at h
      have hcne : ¬ c = '.' := fun hc => h.1 hc.symm
      simp only [splitOnceAux, List.append_eq, if_neg hcne, ih h.2]

theorem splitOnceAux_first : ∀ (pre post : List Char), '.' ∉ pre →
    splitOnceAux (pre ++ '.' :: post) = some (pre, post) := by
  intro pre
  induction pre with
  | nil => intro post _; simp [splitOnceAux]
  | cons c rest ih =>
      intro post h
      simp only [List.mem_cons, not_or] at h
      have hcne : ¬ c = '.' := fun hc => h.1 hc.symm
      simp only [List.cons_append, splitOnceAux, List.append_eq, if_neg hcne, ih post h.2]

theorem splitOnce_no_dot (s : String) (h : '.' ∉ s.data) : splitOnce s = none := by
  unfold splitOnce
  rw [splitOnceAux_no_dot s.data h]

theorem splitOnce_first (pre post : List Char) (h : '.' ∉ pre) :
    splitOnce (String.mk (pre ++ '.' :: post)) = some (String.mk pre, String.mk post) := by
  unfold splitOnce
  rw [data_mk, splitOnceAux_first pre post h]

/-- A `String.mk` of a nonempty list is not the empty string. -/
theorem mk_ne_empty (c : Char) (cs : List Char) : String.mk (c :: cs) ≠ "" := by
  intro h
  have := congrArg String.data h
  simp at this

/-- No base64url-alphabet character is the dot separator. -/
theorem urlChar_ne_dot (n : Nat) : urlChar n ≠ '.' := by
  by_cases h : n < 64
  · revert h
    revert n
    decide
  · unfold urlChar
    rw [List.getD_eq_default]
    · decide
    · have hl : urlAlphabet.length = 64 := by decide
      omega

/-- A string made of a list with a distinguished character is nonempty. -/
theorem mk_append_cons_ne_empty (l1 : List Char) (c : Char) (l2 : List Char) :
    String.mk (l1 ++ c :: l2) ≠ "" := by
  intro h
  have hd := congrArg String.data h
  simp at hd

/-- Structure eta for strings. -/
theorem mk_data (s : String) : String.mk s.data = s := rfl

/-! ## The claims -/

/-- Claim C7: the structural gate. An empty token returns the failure result
`None` (silently); a nonempty token with no `.` returns the failure result
`None` after logging "Not a valid signed_request." (the code's `MALFORMED`
failure); and a token containing a `.` is split exactly once at the first
`.`, the entire remainder after it taken verbatim as the payload segment. -/
theorem claim_C7 (tok : String) (s : List Nat) :
    (tok = "" → parse_signed_request tok s = ⟨.ret none, []⟩) ∧
    (tok ≠ "" → '.' ∉ tok.data →
      parse_signed_request tok s = ⟨.ret none, ["Not a valid signed_request."]⟩) ∧
    (∀ pre post, tok.data = pre ++ '.' :: post → '.' ∉ pre →
      splitOnce tok = some (String.mk pre, String.mk post)) := by
  refine ⟨?_, ?_, ?_⟩
  · intro h
    unfold parse_signed_request
    rw [if_pos h]
  · intro h hd
    unfold parse_signed_request
    rw [if_neg h, splitOnce_no_dot tok hd]
  · intro pre post hdata hd
    unfold splitOnce
    rw [hdata, splitOnceAux_first pre post hd]

/-- Witness for C7 at concrete inputs: the empty token, a dot-free token,
and a token with two dots (split at the first, remainder verbatim). -/
theorem claim_C7_witness :
    parse_signed_request "" (strBytes "s") = ⟨.ret none, []⟩ ∧
    parse_signed_request "abc" (strBytes "s") = ⟨.ret none, ["Not a valid signed_request."]⟩ ∧
    splitOnce "sig.pay.load" = some ("sig", "pay.load") := by
  refine ⟨(claim_C7 "" (strBytes "s")).1 rfl,
    (claim_C7 "abc" (strBytes "s")).2.1 (by decide) (by decide),
    (claim_C7 "sig.pay.load" (strBytes "s")).2.2 ['s', 'i', 'g'] "pay.load".data rfl (by decide)⟩

/-- Claim C9: `get_user_from_cookie` returns `None` when the cookie
`fbsr_<app_id>` is absent or empty, and otherwise delegates to
`parse_signed_request` on the cookie value and the app secret. -/
theorem claim_C9 (cookies : String → Option String) (app_id : String) (secret : List Nat) :
    ((cookies ("fbsr_" ++ app_id) = none ∨ cookies ("fbsr_" ++ app_id) = some "") →
      get_user_from_cookie cookies app_id secret = ⟨.ret none, []⟩) ∧
    (∀ v, cookies ("fbsr_" ++ app_id) = some v → v ≠ "" →
      get_user_from_cookie cookies app_id secret = parse_signed_request v secret) := by
  unfold get_user_from_cookie
  constructor
  · rintro (h | h) <;> rw [h] <;> rfl
  · intro v h hv
    rw [h]
    simp only [Option.getD_some]
    rw [if_neg hv]

/-- Witness for C9 at a concrete cookie jar. -/
theorem claim_C9_witness :
    get_user_from_cookie (fun _ => none) "app" (strBytes "k") = ⟨.ret none, []⟩ ∧
    get_user_from_cookie (fun c => if c = "fbsr_app" then some "tok" else none) "app"
      (strBytes "k") = parse_signed_request "tok" (strBytes "k") := by
  refine ⟨(claim_C9 (fun _ => none) "app" (strBytes "k")).1 (Or.inl rfl),
    (claim_C9 (fun c => if c = "fbsr_app" then some "tok" else none) "app" (strBytes "k")).2
      "tok" (by decide) (by decide)⟩

/-- Claim C10: `put_object` asserts the presence of an access token: with a
falsy (`None` or empty) token it fails the assertion before delegating to
`request`; with a truthy token the assertion branch is not taken and the
call delegates with path `parent_object + "/" + connection_name`. -/
theorem claim_C10 (g : GraphAPI) (p c : String) (d : List (String × String)) :
    (pyTruthy g.access_token = false → put_object g p c d = .assertionError) ∧
    (pyTruthy g.access_token = true → put_object g p c d = .request (p ++ "/" ++ c) d) := by
  unfold put_object
  constructor <;> intro h <;> simp [h]

/-- Witness for C10 at concrete clients. -/
theorem claim_C10_witness :
    put_object ⟨none⟩ "me" "feed" [("message", "Hello, world")] = .assertionError ∧
    put_object ⟨some "tok"⟩ "me" "feed" [("message", "Hello, world")] =
      .request "me/feed" [("message", "Hello, world")] := by
  refine ⟨(claim_C10 ⟨none⟩ "me" "feed" _).1 rfl, ?_⟩
  have h := (claim_C10 ⟨some "tok"⟩ "me" "feed" [("message", "Hello, world")]).2 (by decide)
  exact h

/-- Claim C5, amended: the three failure reasons are *not* distinguishable
from the result value. Every failure the verifier reports (every run that
writes a log line — the structural `MALFORMED` path, the
`UNSUPPORTED_ALGORITHM` path and the `BAD_SIGNATURE` path) returns the one
undifferentiated value `None`; only the log messages tell the reasons
apart. -/
theorem claim_C5 (tok : String) (s : List Nat)
    (h : (parse_signed_request tok s).logs ≠ []) :
    (parse_signed_request tok s).outcome = .ret none := by
  revert h
  unfold parse_signed_request
  repeat' split
  all_goals intro h
  all_goals first
    | rfl
    | exact absurd rfl h

/-- Witness for the amended C5 at a concrete failing input. -/
theorem claim_C5_witness :
    (parse_signed_request "abc" (strBytes "k")).outcome = .ret none := by
  exact claim_C5 "abc" (strBytes "k") (by decide)

/-- Counterexample to C5 as stated: two inputs failing for different reasons
(a structural `MALFORMED` failure and an `UNSUPPORTED_ALGORITHM` failure,
as their distinct log lines show) produce identical result values, so the
caller cannot tell the reasons apart from the result. -/
theorem claim_C5_counterexample :
    (parse_signed_request "abc" (strBytes "k")).outcome =
      (parse_signed_request "AA.eyJhbGdvcml0aG0iOiJ4In0" (strBytes "k")).outcome ∧
    (parse_signed_request "abc" (strBytes "k")).logs ≠
      (parse_signed_request "AA.eyJhbGdvcml0aG0iOiJ4In0" (strBytes "k")).logs := by
  exact ⟨rfl, by decide⟩

/-- Claim C6: `base64_url_decode` is standard base64 decoding of the input
with `-`/`_` translated to `+`/`/` and `(4 - len % 4) % 4` pad characters
appended; on inputs over the URL-safe alphabet, lengths 0, 2, 3 mod 4
decode successfully while length 1 mod 4 is a decode error (the Python 2
decoder's "Incorrect padding"), not a crash. -/
theorem claim_C6 (inp : String) :
    base64_url_decode inp =
      b64decode (inp.data.map translateUrl ++
        List.replicate ((4 - inp.length % 4) % 4) '=') ∧
    ((∀ c ∈ inp.data, isDataChar (translateUrl c)) →
      (inp.length % 4 ≠ 1 → ∃ bs, base64_url_decode inp = Except.ok bs) ∧
      (inp.length % 4 = 1 → base64_url_decode inp = Except.error ())) := by
  have hpt : translateUrl '=' = '=' := rfl
  have hdef : base64_url_decode inp =
      a2b_aux (inp.data.map translateUrl ++
        List.replicate ((4 - inp.length % 4) % 4) '=') 0 0 0 := by
    unfold base64_url_decode b64decode
    simp only [List.map_append, List.map_replicate, hpt]
  constructor
  · exact hdef
  · intro hv
    have hlen : (inp.data.map translateUrl).length = inp.length := by
      rw [List.length_map]
      rfl
    have hv' : ∀ c ∈ inp.data.map translateUrl, isDataChar c := by
      intro c hc
      obtain ⟨a, ha, rfl⟩ := List.mem_map.mp hc
      exact hv a ha
    have hrun := a2b_valid_run (inp.data.map translateUrl) hv'
    rw [hlen] at hrun
    constructor
    · intro h
      obtain ⟨bs, hbs⟩ := hrun.1 h
      refine ⟨bs, ?_⟩
      rw [hdef, replicate_pad inp.length]
      exact hbs
    · intro h
      rw [hdef, replicate_pad inp.length]
      exact hrun.2 h

/-- Witness for C6: a length-3 input decodes, a length-5 input (1 mod 4)
is a decode error. -/
theorem claim_C6_witness :
    (∃ bs, base64_url_decode "e30" = Except.ok bs) ∧
    base64_url_decode "abcde" = Except.error () := by
  exact ⟨((claim_C6 "e30").2 (by decide)).1 (by decide),
    ((claim_C6 "abcde").2 (by decide)).2 rfl⟩

/-- Claim C3: the signature gate. Once the token splits as `e.p`, both
segments base64url-decode, the payload parses as JSON and the algorithm
gate passes, the result is decided by comparing the decoded signature bytes
with HMAC-SHA256 keyed by the secret over the *raw encoded* payload segment
`p` (before base64url decoding): byte-for-byte equality returns the decoded
payload as success, anything else returns the code's `BAD_SIGNATURE`
failure (`None` with the "Bad Signed JSON signature!" log line). -/
theorem claim_C3 (tok : String) (s : List Nat) (e p : String) (sig pb : List Nat)
    (data : Json) (h0 : tok ≠ "") (h1 : splitOnce tok = some (e, p))
    (h2 : base64_url_decode e = .ok sig) (h3 : base64_url_decode p = .ok pb)
    (h4 : parseJsonBytes pb = .ok data) (h5 : getAlgorithm data = .ok "HMAC-SHA256") :
    parse_signed_request tok s =
      if sig = hmacSha256 s (strBytes p) then ⟨.ret (some data), []⟩
      else ⟨.ret none, ["Bad Signed JSON signature!"]⟩ := by
  unfold parse_signed_request
  rw [if_neg h0]
  simp only [h1, h2, h3, h4, h5]
  rw [if_neg (show ¬ "HMAC-SHA256" ≠ "HMAC-SHA256" by simp)]

/-- Witness for C3: a concrete token whose signature segment decodes to a
single zero byte, which is not the payload's HMAC, so the run fails with
the bad-signature log. -/
theorem claim_C3_witness :
    parse_signed_request "AA.eyJhbGdvcml0aG0iOiJITUFDLVNIQTI1NiJ9" (strBytes "secret") =
      ⟨.ret none, ["Bad Signed JSON signature!"]⟩ := by
  rw [claim_C3 "AA.eyJhbGdvcml0aG0iOiJITUFDLVNIQTI1NiJ9" (strBytes "secret")
    "AA" "eyJhbGdvcml0aG0iOiJITUFDLVNIQTI1NiJ9" [0]
    (strBytes "\x7b\"algorithm\":\"HMAC-SHA256\"\x7d")
    (Json.obj [("algorithm", Json.str "HMAC-SHA256")])
    (by decide) rfl rfl rfl rfl rfl]
  rw [if_neg (by decide)]

/-- Claim C4: the round-trip law. For every payload (given by its base64url
text `P`, decoding and parsing to the JSON object `data`, which declares
algorithm HMAC-SHA256) and every key `k`, verifying the spec's
`encode`-construction — HMAC-SHA256 of the encoded payload under `k`,
base64url-encoded, joined as `sig.payload` — succeeds and returns exactly
`data`, the original payload. -/
theorem claim_C4 (P : String) (k : List Nat) (pb : List Nat) (data : Json)
    (hp : base64_url_decode P = .ok pb) (hj : parseJsonBytes pb = .ok data)
    (ha : getAlgorithm data = .ok "HMAC-SHA256") :
    parse_signed_request (encodeToken P k) k = ⟨.ret (some data), []⟩ := by
  have hb := hmac_bytes_lt k (strBytes P)
  have hrt := b64url_roundtrip (hmacSha256 k (strBytes P)) hb
  have hsig : '.' ∉ b64urlEncode (hmacSha256 k (strBytes P)) := by
    unfold b64urlEncode
    intro hm
    obtain ⟨v, _, hv⟩ := List.mem_map.mp hm
    exact urlChar_ne_dot v hv
  unfold encodeToken parse_signed_request
  rw [if_neg (mk_append_cons_ne_empty _ _ _), splitOnce_first _ _ hsig, mk_data]
  simp only [hrt, hp, hj, ha]
  rw [if_neg (show ¬ "HMAC-SHA256" ≠ "HMAC-SHA256" by simp)]
  simp

/-- Witness for C4: the spec's end-to-end scenario — secret `"shhh"`,
payload `{"algorithm":"HMAC-SHA256","user_id":"123"}` — verifies to exactly
that payload. -/
theorem claim_C4_witness :
    parse_signed_request
      (encodeToken "eyJhbGdvcml0aG0iOiJITUFDLVNIQTI1NiIsInVzZXJfaWQiOiIxMjMifQ"
        (strBytes "shhh"))
      (strBytes "shhh") = ⟨.ret (some scenarioData), []⟩ := by
  exact claim_C4 "eyJhbGdvcml0aG0iOiJITUFDLVNIQTI1NiIsInVzZXJfaWQiOiIxMjMifQ"
    (strBytes "shhh") (strBytes scenarioJson) scenarioData rfl rfl rfl

/-- Claim C8, amended: wrong-key rejection holds exactly when the two keys'
HMAC-SHA256 tags over the encoded payload differ: then verifying
`encode(m, k1)` against `k2` is the `BAD_SIGNATURE` failure. Key
inequality alone does not suffice — HMAC-equivalent distinct keys exist
(a key longer than the 64-byte block is first replaced by its SHA-256
digest), and for such pairs verification under `k2` succeeds. -/
theorem claim_C8 (P : String) (k1 k2 : List Nat) (pb : List Nat) (data : Json)
    (hp : base64_url_decode P = .ok pb) (hj : parseJsonBytes pb = .ok data)
    (ha : getAlgorithm data = .ok "HMAC-SHA256")
    (hk : hmacSha256 k2 (strBytes P) ≠ hmacSha256 k1 (strBytes P)) :
    parse_signed_request (encodeToken P k1) k2 =
      ⟨.ret none, ["Bad Signed JSON signature!"]⟩ := by
  have hb := hmac_bytes_lt k1 (strBytes P)
  have hrt := b64url_roundtrip (hmacSha256 k1 (strBytes P)) hb
  have hsig : '.' ∉ b64urlEncode (hmacSha256 k1 (strBytes P)) := by
    unfold b64urlEncode
    intro hm
    obtain ⟨v, _, hv⟩ := List.mem_map.mp hm
    exact urlChar_ne_dot v hv
  unfold encodeToken parse_signed_request
  rw [if_neg (mk_append_cons_ne_empty _ _ _), splitOnce_first _ _ hsig, mk_data]
  simp only [hrt, hp, hj, ha]
  rw [if_neg (show ¬ "HMAC-SHA256" ≠ "HMAC-SHA256" by simp),
    if_neg (fun h => hk h.symm)]

/-- Witness for the amended C8: two short keys with different MACs — the
token signed under `"shhh"` is rejected under `"nope"`. -/
theorem claim_C8_witness :
    parse_signed_request
      (encodeToken "eyJhbGdvcml0aG0iOiJITUFDLVNIQTI1NiIsInVzZXJfaWQiOiIxMjMifQ"
        (strBytes "shhh"))
      (strBytes "nope") = ⟨.ret none, ["Bad Signed JSON signature!"]⟩ := by
  exact claim_C8 "eyJhbGdvcml0aG0iOiJITUFDLVNIQTI1NiIsInVzZXJfaWQiOiIxMjMifQ"
    (strBytes "shhh") (strBytes "nope") (strBytes scenarioJson) scenarioData
    rfl rfl rfl (by decide)

/-- Counterexample to C8 as stated: the distinct keys `k1` = 65 copies of
`0x61` and `k2 = SHA-256(k1)` are HMAC-equivalent (Python 2 `hmac` hashes
keys longer than the 64-byte block), so verifying `encode(m, k1)` against
`k2` *succeeds* and returns the payload instead of failing with
`BAD_SIGNATURE`. -/
theorem claim_C8_counterexample :
    List.replicate 65 97 ≠ sha256 (List.replicate 65 97) ∧
    parse_signed_request
      (encodeToken "eyJhbGdvcml0aG0iOiJITUFDLVNIQTI1NiIsInVzZXJfaWQiOiIxMjMifQ"
        (List.replicate 65 97))
      (sha256 (List.replicate 65 97)) = ⟨.ret (some scenarioData), []⟩ := by
  constructor
  · intro h
    have hl := congrArg List.length h
    rw [sha256_length] at hl
    simp at hl
  · rfl

/-- Claim C1, amended: a token whose payload decodes to a JSON object with
no `algorithm` field does not return a failure result — `data.get
('algorithm')` is `None`, and calling `.upper()` on it raises an uncaught
`AttributeError`. -/
theorem claim_C1 (tok : String) (s : List Nat) (e p : String) (sig pb : List Nat)
    (kvs : List (String × Json)) (h0 : tok ≠ "") (h1 : splitOnce tok = some (e, p))
    (h2 : base64_url_decode e = .ok sig) (h3 : base64_url_decode p = .ok pb)
    (h4 : parseJsonBytes pb = .ok (Json.obj kvs)) (h5 : dictGet kvs "algorithm" = none) :
    parse_signed_request tok s = ⟨.exn .attributeError, []⟩ := by
  unfold parse_signed_request
  rw [if_neg h0]
  simp only [h1, h2, h3, h4, getAlgorithm, h5]

/-- Counterexample to C1 as stated: the token `.e30` (payload `{}`, no
algorithm field) makes `parse_signed_request` raise `AttributeError`
instead of returning an `UNSUPPORTED_ALGORITHM` failure result. -/
theorem claim_C1_counterexample :
    parse_signed_request ".e30" (strBytes "k") = ⟨.exn .attributeError, []⟩ ∧
    (parse_signed_request ".e30" (strBytes "k")).outcome ≠ .ret none := by
  refine ⟨rfl, ?_⟩
  have he : (parse_signed_request ".e30" (strBytes "k")).outcome =
      .exn .attributeError := rfl
  rw [he]
  intro hh
  exact PSOutcome.noConfusion hh

/-- Witness for the amended C1 at the same concrete input. -/
theorem claim_C1_witness :
    parse_signed_request ".e30" (strBytes "w") = ⟨.exn .attributeError, []⟩ := by
  exact claim_C1 ".e30" (strBytes "w") "" "e30" [] [123, 125] []
    (by decide) rfl rfl rfl rfl rfl

/-- Claim C2, amended: decode and parse failures are *not* returned as
verification failures — they escape `parse_signed_request` as uncaught
exceptions: a signature or payload segment that fails base64 decoding
raises `TypeError` (Python 2 `base64.b64decode`), and a payload that
decodes to invalid JSON raises `ValueError` from the JSON parser. -/
theorem claim_C2 (tok : String) (s : List Nat) (e p : String) (h0 : tok ≠ "")
    (h1 : splitOnce tok = some (e, p)) :
    (base64_url_decode e = .error () →
      parse_signed_request tok s = ⟨.exn .typeError, []⟩) ∧
    (∀ sig, base64_url_decode e = .ok sig → base64_url_decode p = .error () →
      parse_signed_request tok s = ⟨.exn .typeError, []⟩) ∧
    (∀ sig pb, base64_url_decode e = .ok sig → base64_url_decode p = .ok pb →
      parseJsonBytes pb = .error () →
      parse_signed_request tok s = ⟨.exn .valueError, []⟩) := by
  unfold parse_signed_request
  rw [if_neg h0]
  refine ⟨?_, ?_, ?_⟩
  · intro h2
    simp only [h1, h2]
  · intro sig h2 h3
    simp only [h1, h2, h3]
  · intro sig pb h2 h3 h4
    simp only [h1, h2, h3, h4]

/-- Counterexample to C2 as stated: the tokens `a.e30` (signature segment of
length 1 mod 4, a base64 decode error) and `e30.YQ` (payload decodes to the
non-JSON byte `a`) make `parse_signed_request` raise `TypeError` and
`ValueError` respectively — the errors escape instead of becoming
`MALFORMED` failure results. -/
theorem claim_C2_counterexample :
    parse_signed_request "a.e30" (strBytes "k") = ⟨.exn .typeError, []⟩ ∧
    (parse_signed_request "a.e30" (strBytes "k")).outcome ≠ .ret none ∧
    parse_signed_request "e30.YQ" (strBytes "k") = ⟨.exn .valueError, []⟩ := by
  refine ⟨rfl, ?_, rfl⟩
  have he : (parse_signed_request "a.e30" (strBytes "k")).outcome =
      .exn .typeError := rfl
  rw [he]
  intro hh
  exact PSOutcome.noConfusion hh

/-- Witness for the amended C2 at the same concrete inputs. -/
theorem claim_C2_witness :
    parse_signed_request "a.e30" (strBytes "w") = ⟨.exn .typeError, []⟩ ∧
    parse_signed_request "e30.YQ" (strBytes "w") = ⟨.exn .valueError, []⟩ := by
  refine ⟨(claim_C2 "a.e30" (strBytes "w") "a" "e30" (by decide) rfl).1 rfl, ?_⟩
  exact (claim_C2 "e30.YQ" (strBytes "w") "e30" "YQ" (by decide) rfl).2.2
    [123, 125] [97] rfl rfl rfl
